import Mathlib

/- Verification of the tensor registry and type-conversion subsystem of
flutter_onnxruntime, shallowly embedded from the platform sources
src/linux/src/tensor_manager.cc and src/windows/src/tensor_manager.cc.

Modelling conventions:
- std::unordered_map and std::map over string keys are embedded as
  association lists with the find / insert-or-assign / erase operations
  used by the code.
- float values are embedded as exact rationals.  All float32 literals the
  code manipulates here (0.5f, 255, the comparison bounds) and all inputs
  named by the specification (300.0, -10.0, 2.5, -2.5) are exactly
  representable in float32, and float32 addition of k + 0.5 for the half
  integers under test is exact, so the rational model agrees with IEEE
  semantics on everything stated below.  static_cast from a floating value
  to an integer type truncates toward zero; out-of-range casts (undefined
  behaviour in C++) are modelled as unbounded truncation.
- machine integers are embedded as Int / Nat; the conversion routines under
  test clamp before any narrowing cast, so no overflow arises on the paths
  stated below.
- typed pointer reads (GetTensorMutableData) are modelled at the level of
  element values: a native tensor is its element list plus its shape.
- thrown C++ exceptions are modelled with Except / Option.  Registry
  mutations that precede a throw are preserved where a stated property can
  observe them (the store path); the only mutation elided on failing paths
  is the id counter bump a conversion performs before rejecting its target
  type, which no registry read can observe. -/

deriving instance DecidableEq for Except

/-! ## Association-list model of the registry maps -/

def mapFind {α : Type} : List (String × α) → String → Option α
  | [], _ => none
  | (k, v) :: rest, key => if k = key then some v else mapFind rest key

def mapInsert {α : Type} : List (String × α) → String → α → List (String × α)
  | [], key, v => [(key, v)]
  | (k, w) :: rest, key, v =>
      if k = key then (k, v) :: rest else (k, w) :: mapInsert rest key v

def mapErase {α : Type} : List (String × α) → String → List (String × α)
  | [], _ => []
  | (k, w) :: rest, key => if k = key then rest else (k, w) :: mapErase rest key

/-- Keys of an association list are pairwise distinct; std::map and
std::unordered_map guarantee this, and every operation of the embedded code
preserves it. -/
def keyNodup {α : Type} (m : List (String × α)) : Prop :=
  (m.map Prod.fst).Nodup

instance {α : Type} (m : List (String × α)) : Decidable (keyNodup m) := by
  unfold keyNodup; infer_instance

theorem mapFind_insert_self {α : Type} (m : List (String × α)) (k : String) (v : α) :
    mapFind (mapInsert m k v) k = some v := by
  induction m with
  | nil => simp [mapInsert, mapFind]
  | cons hd tl ih =>
      obtain ⟨k0, v0⟩ := hd
      by_cases h : k0 = k
      · simp [mapInsert, h, mapFind]
      · simp [mapInsert, h, mapFind, ih]

theorem mapFind_insert_ne {α : Type} (m : List (String × α)) (k g : String) (v : α)
    (hne : g ≠ k) : mapFind (mapInsert m k v) g = mapFind m g := by
  have hkg : ¬ k = g := fun h => hne h.symm
  induction m with
  | nil => simp [mapInsert, mapFind, hkg]
  | cons hd tl ih =>
      obtain ⟨k0, v0⟩ := hd
      by_cases h : k0 = k
      · subst h
        simp [mapInsert, mapFind, hkg]
      · simp [mapInsert, h, mapFind, ih]

theorem mapFind_erase_ne {α : Type} (m : List (String × α)) (k g : String)
    (hne : g ≠ k) : mapFind (mapErase m k) g = mapFind m g := by
  have hkg : ¬ k = g := fun h => hne h.symm
  induction m with
  | nil => simp [mapErase]
  | cons hd tl ih =>
      obtain ⟨k0, v0⟩ := hd
      by_cases h : k0 = k
      · subst h
        simp [mapErase, mapFind, hkg]
      · simp [mapErase, h, mapFind, ih]

theorem mapFind_notMem {α : Type} (m : List (String × α)) (k : String)
    (h : k ∉ m.map Prod.fst) : mapFind m k = none := by
  induction m with
  | nil => rfl
  | cons hd tl ih =>
      obtain ⟨k0, v0⟩ := hd
      simp only [List.map_cons, List.mem_cons] at h
      push_neg at h
      have hk0 : ¬ k0 = k := fun hh => h.1 hh.symm
      simp [mapFind, hk0, ih h.2]

theorem mapFind_erase_self {α : Type} (m : List (String × α)) (k : String)
    (hnd : keyNodup m) : mapFind (mapErase m k) k = none := by
  induction m with
  | nil => rfl
  | cons hd tl ih =>
      obtain ⟨k0, v0⟩ := hd
      unfold keyNodup at hnd
      simp only [List.map_cons, List.nodup_cons] at hnd
      by_cases h : k0 = k
      · subst h
        simpa [mapErase] using mapFind_notMem tl k0 hnd.1
      · simp [mapErase, h, mapFind, ih hnd.2]

/-! ## Data model -/

/-- Subset of ONNXTensorElementDataType, the native element-type tag of an
Ort::Value produced by the inference engine. -/
inductive OnnxElementType where
  | float | uint8t | int32t | int64t | boolt | stringt | float16 | doublet | complex64
deriving DecidableEq

/-- Element contents of a tensor, one constructor per registry element type. -/
inductive TensorValue where
  | float32 (data : List ℚ)
  | int32 (data : List ℤ)
  | int64 (data : List ℤ)
  | uint8 (data : List ℕ)
  | boolv (data : List Bool)
  | stringv (data : List String)
deriving DecidableEq

/-- Type tag string recorded in tensor_types_ by each createXTensor function. -/
def typeTagOf : TensorValue → String
  | .float32 _ => "float32"
  | .int32 _ => "int32"
  | .int64 _ => "int64"
  | .uint8 _ => "uint8"
  | .boolv _ => "bool"
  | .stringv _ => "string"

/-- Native element-type tag carried by the Ort::Value a create function builds. -/
def etypeOfVal : TensorValue → OnnxElementType
  | .float32 _ => .float
  | .int32 _ => .int32t
  | .int64 _ => .int64t
  | .uint8 _ => .uint8t
  | .boolv _ => .boolt
  | .stringv _ => .stringt

def dataLen : TensorValue → ℕ
  | .float32 d => d.length
  | .int32 d => d.length
  | .int64 d => d.length
  | .uint8 d => d.length
  | .boolv d => d.length
  | .stringv d => d.length

def f32Data : TensorValue → List ℚ
  | .float32 d => d
  | _ => []

def i32Data : TensorValue → List ℤ
  | .int32 d => d
  | _ => []

def i64Data : TensorValue → List ℤ
  | .int64 d => d
  | _ => []

def u8Data : TensorValue → List ℕ
  | .uint8 d => d
  | _ => []

def boolData : TensorValue → List Bool
  | .boolv d => d
  | _ => []

/-- A native Ort::Value: its element-type tag, its element values, and the
shape it was created with (GetTensorTypeAndShapeInfo reads these back). -/
structure NativeTensor where
  etype : OnnxElementType
  val : TensorValue
  shape : List ℤ
deriving DecidableEq

/-- Registry state of a TensorManager: the id counter next_tensor_id_ and the
three maps tensors_, tensor_types_ and tensor_shapes_ (the windows variant
adds a buffer map whose keys mirror tensors_; buffer contents are the element
values already held by NativeTensor, so it is not duplicated here). -/
structure TMState where
  nextTensorId : ℕ
  tensors : List (String × NativeTensor)
  tensorTypes : List (String × String)
  tensorShapes : List (String × List ℤ)
deriving DecidableEq

/-- Linux generateTensorId returns "tensor_" ++ next_tensor_id_ and increments
the counter; this is the id the next allocation will use. -/
def freshTensorId (st : TMState) : String :=
  "tensor_" ++ toString st.nextTensorId

def TMState.initial : TMState := ⟨1, [], [], []⟩

/-- Element count demanded by Ort::Value::CreateTensor: the product of the
shape dimensions must equal the length of the supplied flat buffer. -/
def shapeProd (shape : List ℤ) : ℤ := shape.foldr (· * ·) 1

def supportedTypeTags : List String :=
  ["float32", "int32", "int64", "uint8", "bool", "string"]

def numericTypeTags : List String :=
  ["float32", "int32", "int64", "uint8", "bool"]

/-! ## Element-level conversion rules

Each function is the loop body of the corresponding branch of the
convertXTo functions; both platform variants use identical loop bodies. -/

/-- Truncation toward zero of an exact rational, the effect of a C++
static_cast from a floating value to an integer type. -/
def ratTrunc (q : ℚ) : ℤ := q.num.tdiv q.den

/-- Loop body of the float32 to int32 and float32 to int64 branches:
static_cast of data[i] + (data[i] >= 0 ? 0.5f : -0.5f). -/
def f32RoundElem (v : ℚ) : ℤ :=
  ratTrunc (v + (if 0 ≤ v then (1 : ℚ)/2 else -(1 : ℚ)/2))

/-- Loop body of the float32 to uint8 branch:
val = data[i] < 0 ? 0 : (data[i] > 255 ? 255 : data[i] + 0.5f), then
static_cast to uint8_t. -/
def f32ToUint8Elem (v : ℚ) : ℕ :=
  (ratTrunc (if v < 0 then 0 else if 255 < v then 255 else v + (1 : ℚ)/2)).toNat

/-- Loop body of the int32 to uint8 and int64 to uint8 branches:
val = data[i] < 0 ? 0 : (data[i] > 255 ? 255 : data[i]). -/
def intToUint8Elem (v : ℤ) : ℕ :=
  (if v < 0 then 0 else if 255 < v then 255 else v).toNat

/-- Loop body of the int64 to int32 branch: clamp to the int32 range before
the narrowing cast. -/
def int64ToInt32Elem (v : ℤ) : ℤ :=
  if 2147483647 < v then 2147483647
  else if v < -2147483648 then -2147483648
  else v

/-- Rounding rule as worded by the specification: round half away from zero,
that is, round the magnitude half-up and reapply the sign. -/
def specRoundHalfAwayFromZero (q : ℚ) : ℤ :=
  if 0 ≤ q then ⌊q + 1/2⌋ else -⌊-q + 1/2⌋

theorem ratTrunc_nonneg_eq_floor (q : ℚ) (h : 0 ≤ q) : ratTrunc q = ⌊q⌋ := by
  unfold ratTrunc
  rw [Int.tdiv_eq_ediv (Rat.num_nonneg.mpr h) (Int.ofNat_nonneg q.den)]
  exact Rat.floor_def.symm

theorem ratTrunc_nonpos_eq_ceil (q : ℚ) (h : q ≤ 0) : ratTrunc q = ⌈q⌉ := by
  unfold ratTrunc
  have hnum : q.num ≤ 0 := Rat.num_nonpos.mpr h
  have hneg : (-q).num.tdiv (-q).den = ⌊-q⌋ := by
    rw [Int.tdiv_eq_ediv (by simpa using hnum) (Int.ofNat_nonneg (-q).den)]
    exact Rat.floor_def.symm
  have hden : ((-q).den : ℤ) = (q.den : ℤ) := by simp
  have hn : (-q).num = -q.num := by simp
  rw [hn, hden] at hneg
  have hstep : q.num.tdiv q.den = -((-q.num).tdiv q.den) := by
    rw [Int.neg_tdiv, neg_neg]
  rw [hstep, hneg, Int.floor_neg, neg_neg]

/-! ## Registry operations (linux variant, tensor_manager.cc) -/

/-- Result of getTensorData: the map {shape, dataType, data}. -/
structure TensorDataResult where
  shape : List ℤ
  dataType : String
  value : TensorValue
deriving DecidableEq

/-- Modelled from the spec: SessionManager.getElementTypeString is declared in
the session layer and its definition is not among these sources; per the spec
the store path must map every native element-type tag the engine can produce
to one of the registry element types or fail with UnsupportedTypeError.  The
optional float16 tag maps to "float16" (one platform variant supports it). -/
def getElementTypeString : OnnxElementType → Except String String
  | .float => .ok "float32"
  | .int32t => .ok "int32"
  | .int64t => .ok "int64"
  | .uint8t => .ok "uint8"
  | .boolt => .ok "bool"
  | .stringt => .ok "string"
  | .float16 => .ok "float16"
  | _ => .error "UnsupportedTypeError"

/-- Common body of createFloat32Tensor, createInt32Tensor, createInt64Tensor,
createUint8Tensor, createBoolTensor and createStringTensor: generate an id,
copy the caller data into a registry-owned buffer, build the native tensor
over it (Ort::Value::CreateTensor throws unless the element count matches the
product of the shape dimensions), then record tensor, type tag and shape. -/
def createTensor (st : TMState) (v : TensorValue) (shape : List ℤ) :
    Except String (String × TMState) :=
  let id := freshTensorId st
  if shapeProd shape = (dataLen v : ℤ) then
    .ok (id,
      { nextTensorId := st.nextTensorId + 1
        tensors := mapInsert st.tensors id ⟨etypeOfVal v, v, shape⟩
        tensorTypes := mapInsert st.tensorTypes id (typeTagOf v)
        tensorShapes := mapInsert st.tensorShapes id shape })
  else
    .error "Ort::Exception"

/-- getTensorData: returns a null sentinel (modelled none) when any of the
three map lookups misses, throws on a type tag outside the supported set,
and otherwise snapshots shape, type tag and element data.  The read is pure:
it takes the state and returns a value, mutating nothing. -/
def getTensorData (st : TMState) (id : String) :
    Except String (Option TensorDataResult) :=
  match mapFind st.tensors id, mapFind st.tensorTypes id, mapFind st.tensorShapes id with
  | some nt, some ty, some sh =>
      if ty ∈ supportedTypeTags then .ok (some ⟨sh, ty, nt.val⟩)
      else .error ("Unsupported tensor type: " ++ ty)
  | _, _, _ => .ok none

/-- releaseTensor: removes the record if the tensors_ map holds the id and
reports whether it did; the type and shape entries are erased alongside. -/
def releaseTensor (st : TMState) (id : String) : Bool × TMState :=
  if (mapFind st.tensors id).isSome then
    (true,
      { nextTensorId := st.nextTensorId
        tensors := mapErase st.tensors id
        tensorTypes := mapErase st.tensorTypes id
        tensorShapes := mapErase st.tensorShapes id })
  else
    (false, st)

/-- getTensor: internal lookup returning the native tensor or null. -/
def getTensor (st : TMState) (id : String) : Option NativeTensor :=
  mapFind st.tensors id

/-- storeTensor (linux): stores the native tensor first, then introspects it
for shape and type; the surrounding catch block swallows any exception, so a
failing type mapping leaves the already-inserted tensor and shape entries in
place with no type entry recorded. -/
def storeTensor (st : TMState) (id : String) (t : NativeTensor) : TMState :=
  let st1 := { st with tensors := mapInsert st.tensors id t }
  let st2 := { st1 with tensorShapes := mapInsert st1.tensorShapes id t.shape }
  match getElementTypeString t.etype with
  | .ok ty => { st2 with tensorTypes := mapInsert st2.tensorTypes id ty }
  | .error _ => st2

/-- getTensorType: metadata lookup; a missing id surfaces as an error (the
linux variant lets map::at throw, the windows variant throws explicitly),
modelled as none. -/
def getTensorType (st : TMState) (id : String) : Option String :=
  mapFind st.tensorTypes id

/-- getTensorShape: metadata lookup, failing like getTensorType. -/
def getTensorShape (st : TMState) (id : String) : Option (List ℤ) :=
  mapFind st.tensorShapes id

/-- cloneTensor: looks the tensor up, then copies its element buffer into a
fresh allocation and builds a new native tensor over the copy, using the
shape recorded in tensor_shapes_; string tensors are cloned element by
element through the ORT allocator.  Types outside the supported set throw. -/
def cloneTensor (st : TMState) (id : String) : Except String NativeTensor :=
  match mapFind st.tensors id, mapFind st.tensorTypes id, mapFind st.tensorShapes id with
  | some nt, some ty, some sh =>
      if ty ∈ supportedTypeTags then .ok ⟨nt.etype, nt.val, sh⟩
      else .error ("Unsupported tensor type: " ++ ty)
  | _, _, _ => .error ("Tensor not found: " ++ id)

/-- Common tail of every conversion branch: generate the fresh id, store the
new native tensor (built over the given native shape), then record the type
tag and the recorded shape.  nativeSh and recordedSh coincide on every branch
except the same-type clone path, which builds the clone over the shape map
entry but records the shape read back from the source native tensor. -/
def insertNewFull (st : TMState) (v : TensorValue) (nativeSh recordedSh : List ℤ)
    (ty : String) : String × TMState :=
  let newId := freshTensorId st
  (newId,
    { nextTensorId := st.nextTensorId + 1
      tensors := mapInsert st.tensors newId ⟨etypeOfVal v, v, nativeSh⟩
      tensorTypes := mapInsert st.tensorTypes newId ty
      tensorShapes := mapInsert st.tensorShapes newId recordedSh })

def insertNew (st : TMState) (v : TensorValue) (sh : List ℤ) (ty : String) :
    String × TMState :=
  insertNewFull st v sh sh ty

/-- convertFloat32To: element-wise conversion of a float32 tensor; the shape
is read from the source native tensor.  Callers have already checked the id
resolves (the function itself indexes tensors_ with operator[], so the none
branch is unreachable from convertTensor). -/
def convertFloat32To (st : TMState) (id : String) (target : String) :
    Except String (String × TMState) :=
  match mapFind st.tensors id with
  | none => .error "Tensor not found"
  | some nt =>
      let data := f32Data nt.val
      if target = "int32" then
        .ok (insertNew st (.int32 (data.map f32RoundElem)) nt.shape "int32")
      else if target = "int64" then
        .ok (insertNew st (.int64 (data.map f32RoundElem)) nt.shape "int64")
      else if target = "uint8" then
        .ok (insertNew st (.uint8 (data.map f32ToUint8Elem)) nt.shape "uint8")
      else if target = "bool" then
        .ok (insertNew st (.boolv (data.map (fun v => decide (v ≠ 0)))) nt.shape "bool")
      else
        .error ("Unsupported type: " ++ target)

/-- convertInt32To: element-wise conversion of an int32 tensor. -/
def convertInt32To (st : TMState) (id : String) (target : String) :
    Except String (String × TMState) :=
  match mapFind st.tensors id with
  | none => .error "Tensor not found"
  | some nt =>
      let data := i32Data nt.val
      if target = "float32" then
        .ok (insertNew st (.float32 (data.map (fun v => (v : ℚ)))) nt.shape "float32")
      else if target = "int64" then
        .ok (insertNew st (.int64 data) nt.shape "int64")
      else if target = "uint8" then
        .ok (insertNew st (.uint8 (data.map intToUint8Elem)) nt.shape "uint8")
      else if target = "bool" then
        .ok (insertNew st (.boolv (data.map (fun v => decide (v ≠ 0)))) nt.shape "bool")
      else
        .error ("Unsupported type: " ++ target)

/-- convertInt64To: element-wise conversion of an int64 tensor; the float32
branch narrows with possible precision loss (exact in this rational model),
the int32 branch clamps to the int32 range, uint8 clamps to [0, 255]. -/
def convertInt64To (st : TMState) (id : String) (target : String) :
    Except String (String × TMState) :=
  match mapFind st.tensors id with
  | none => .error "Tensor not found"
  | some nt =>
      let data := i64Data nt.val
      if target = "float32" then
        .ok (insertNew st (.float32 (data.map (fun v => (v : ℚ)))) nt.shape "float32")
      else if target = "int32" then
        .ok (insertNew st (.int32 (data.map int64ToInt32Elem)) nt.shape "int32")
      else if target = "uint8" then
        .ok (insertNew st (.uint8 (data.map intToUint8Elem)) nt.shape "uint8")
      else if target = "bool" then
        .ok (insertNew st (.boolv (data.map (fun v => decide (v ≠ 0)))) nt.shape "bool")
      else
        .error ("Unsupported type: " ++ target)

/-- convertUint8To: element-wise widening of a uint8 tensor. -/
def convertUint8To (st : TMState) (id : String) (target : String) :
    Except String (String × TMState) :=
  match mapFind st.tensors id with
  | none => .error "Tensor not found"
  | some nt =>
      let data := u8Data nt.val
      if target = "float32" then
        .ok (insertNew st (.float32 (data.map (fun v => (v : ℚ)))) nt.shape "float32")
      else if target = "int32" then
        .ok (insertNew st (.int32 (data.map (fun v => (v : ℤ)))) nt.shape "int32")
      else if target = "int64" then
        .ok (insertNew st (.int64 (data.map (fun v => (v : ℤ)))) nt.shape "int64")
      else if target = "bool" then
        .ok (insertNew st (.boolv (data.map (fun v => decide (v ≠ 0)))) nt.shape "bool")
      else
        .error ("Unsupported type: " ++ target)

/-- convertBoolTo: element-wise conversion of a bool tensor to 1/0 values. -/
def convertBoolTo (st : TMState) (id : String) (target : String) :
    Except String (String × TMState) :=
  match mapFind st.tensors id with
  | none => .error "Tensor not found"
  | some nt =>
      let data := boolData nt.val
      if target = "float32" then
        .ok (insertNew st (.float32 (data.map (fun b => if b then 1 else 0))) nt.shape "float32")
      else if target = "int32" then
        .ok (insertNew st (.int32 (data.map (fun b => if b then 1 else 0))) nt.shape "int32")
      else if target = "int64" then
        .ok (insertNew st (.int64 (data.map (fun b => if b then 1 else 0))) nt.shape "int64")
      else if target = "uint8" then
        .ok (insertNew st (.uint8 (data.map (fun b => if b then 1 else 0))) nt.shape "uint8")
      else
        .error ("Unsupported type: " ++ target)

/-- convertTensor (linux): resolves the id against all three maps, clones when
source and target type coincide (recording the shape read back from the
source native tensor), otherwise dispatches on the source type string; a
source type outside the five numeric kinds falls through to an error. -/
def convertTensor (st : TMState) (id : String) (target : String) :
    Except String (String × TMState) :=
  match mapFind st.tensors id, mapFind st.tensorTypes id, mapFind st.tensorShapes id with
  | some nt, some srcTy, some _sh =>
      if srcTy = target then
        match cloneTensor st id with
        | .error e => .error e
        | .ok cloned => .ok (insertNewFull st cloned.val cloned.shape nt.shape srcTy)
      else if srcTy = "float32" then convertFloat32To st id target
      else if srcTy = "int32" then convertInt32To st id target
      else if srcTy = "int64" then convertInt64To st id target
      else if srcTy = "uint8" then convertUint8To st id target
      else if srcTy = "bool" then convertBoolTo st id target
      else .error ("Unsupported type conversion: " ++ srcTy ++ " to " ++ target)
  | _, _, _ => .error "Tensor not found"

/-! ## Registry operations (windows variant, tensor_manager.cc)

The windows variant differs from linux in three claim-relevant ways: its
generateTensorId draws a random id (modelled by an explicit freshId oracle
argument), its convertTensor rejects a float16 target before the same-type
comparison, and its storeTensor rethrows instead of swallowing exceptions.
The element-wise conversion loop bodies are identical on both platforms. -/

namespace Windows

/-- Windows insert tail: store the new native tensor under the supplied
random id and record type and shape (the backing buffer map entry keyed by
the same id is value-identical to the tensor entry and is not duplicated). -/
def insertNewAt (freshId : String) (st : TMState) (v : TensorValue)
    (nativeSh recordedSh : List ℤ) (ty : String) : String × TMState :=
  (freshId,
    { nextTensorId := st.nextTensorId
      tensors := mapInsert st.tensors freshId ⟨etypeOfVal v, v, nativeSh⟩
      tensorTypes := mapInsert st.tensorTypes freshId ty
      tensorShapes := mapInsert st.tensorShapes freshId recordedSh })

/-- Windows cloneTensor: same lookup and per-type byte-for-byte copy as the
linux variant, returning the cloned value together with its managed buffer. -/
def cloneTensor (st : TMState) (id : String) : Except String NativeTensor :=
  match mapFind st.tensors id, mapFind st.tensorTypes id, mapFind st.tensorShapes id with
  | some nt, some ty, some sh =>
      if ty ∈ supportedTypeTags then .ok ⟨nt.etype, nt.val, sh⟩
      else .error ("Unsupported tensor type: " ++ ty)
  | _, _, _ => .error ("Tensor not found: " ++ id)

/-- Windows convertFloat32To, identical loop bodies to the linux variant. -/
def convertFloat32To (freshId : String) (st : TMState) (id : String)
    (target : String) : Except String (String × TMState) :=
  match mapFind st.tensors id with
  | none => .error "Tensor not found"
  | some nt =>
      let data := f32Data nt.val
      if target = "int32" then
        .ok (insertNewAt freshId st (.int32 (data.map f32RoundElem)) nt.shape nt.shape "int32")
      else if target = "int64" then
        .ok (insertNewAt freshId st (.int64 (data.map f32RoundElem)) nt.shape nt.shape "int64")
      else if target = "uint8" then
        .ok (insertNewAt freshId st (.uint8 (data.map f32ToUint8Elem)) nt.shape nt.shape "uint8")
      else if target = "bool" then
        .ok (insertNewAt freshId st (.boolv (data.map (fun v => decide (v ≠ 0)))) nt.shape nt.shape "bool")
      else
        .error ("Unsupported type: " ++ target)

/-- Windows convertInt32To, identical loop bodies to the linux variant. -/
def convertInt32To (freshId : String) (st : TMState) (id : String)
    (target : String) : Except String (String × TMState) :=
  match mapFind st.tensors id with
  | none => .error "Tensor not found"
  | some nt =>
      let data := i32Data nt.val
      if target = "float32" then
        .ok (insertNewAt freshId st (.float32 (data.map (fun v => (v : ℚ)))) nt.shape nt.shape "float32")
      else if target = "int64" then
        .ok (insertNewAt freshId st (.int64 data) nt.shape nt.shape "int64")
      else if target = "uint8" then
        .ok (insertNewAt freshId st (.uint8 (data.map intToUint8Elem)) nt.shape nt.shape "uint8")
      else if target = "bool" then
        .ok (insertNewAt freshId st (.boolv (data.map (fun v => decide (v ≠ 0)))) nt.shape nt.shape "bool")
      else
        .error ("Unsupported type: " ++ target)

/-- Windows convertInt64To, identical loop bodies to the linux variant. -/
def convertInt64To (freshId : String) (st : TMState) (id : String)
    (target : String) : Except String (String × TMState) :=
  match mapFind st.tensors id with
  | none => .error "Tensor not found"
  | some nt =>
      let data := i64Data nt.val
      if target = "float32" then
        .ok (insertNewAt freshId st (.float32 (data.map (fun v => (v : ℚ)))) nt.shape nt.shape "float32")
      else if target = "int32" then
        .ok (insertNewAt freshId st (.int32 (data.map int64ToInt32Elem)) nt.shape nt.shape "int32")
      else if target = "uint8" then
        .ok (insertNewAt freshId st (.uint8 (data.map intToUint8Elem)) nt.shape nt.shape "uint8")
      else if target = "bool" then
        .ok (insertNewAt freshId st (.boolv (data.map (fun v => decide (v ≠ 0)))) nt.shape nt.shape "bool")
      else
        .error ("Unsupported type: " ++ target)

/-- Windows convertUint8To, identical loop bodies to the linux variant. -/
def convertUint8To (freshId : String) (st : TMState) (id : String)
    (target : String) : Except String (String × TMState) :=
  match mapFind st.tensors id with
  | none => .error "Tensor not found"
  | some nt =>
      let data := u8Data nt.val
      if target = "float32" then
        .ok (insertNewAt freshId st (.float32 (data.map (fun v => (v : ℚ)))) nt.shape nt.shape "float32")
      else if target = "int32" then
        .ok (insertNewAt freshId st (.int32 (data.map (fun v => (v : ℤ)))) nt.shape nt.shape "int32")
      else if target = "int64" then
        .ok (insertNewAt freshId st (.int64 (data.map (fun v => (v : ℤ)))) nt.shape nt.shape "int64")
      else if target = "bool" then
        .ok (insertNewAt freshId st (.boolv (data.map (fun v => decide (v ≠ 0)))) nt.shape nt.shape "bool")
      else
        .error ("Unsupported type: " ++ target)

/-- Windows convertBoolTo, identical loop bodies to the linux variant. -/
def convertBoolTo (freshId : String) (st : TMState) (id : String)
    (target : String) : Except String (String × TMState) :=
  match mapFind st.tensors id with
  | none => .error "Tensor not found"
  | some nt =>
      let data := boolData nt.val
      if target = "float32" then
        .ok (insertNewAt freshId st (.float32 (data.map (fun b => if b then 1 else 0))) nt.shape nt.shape "float32")
      else if target = "int32" then
        .ok (insertNewAt freshId st (.int32 (data.map (fun b => if b then 1 else 0))) nt.shape nt.shape "int32")
      else if target = "int64" then
        .ok (insertNewAt freshId st (.int64 (data.map (fun b => if b then 1 else 0))) nt.shape nt.shape "int64")
      else if target = "uint8" then
        .ok (insertNewAt freshId st (.uint8 (data.map (fun b => if b then 1 else 0))) nt.shape nt.shape "uint8")
      else
        .error ("Unsupported type: " ++ target)

/-- Windows convertTensor: after resolving the id against the three maps it
fails fast on a float16 target, before the source/target equality comparison
and thus before the same-type clone fast path; only then does it clone or
dispatch on the source type. -/
def convertTensor (freshId : String) (st : TMState) (id : String)
    (target : String) : Except String (String × TMState) :=
  match mapFind st.tensors id, mapFind st.tensorTypes id, mapFind st.tensorShapes id with
  | some nt, some srcTy, some _sh =>
      if target = "float16" then
        .error "float16 is not supported on Windows"
      else if srcTy = target then
        match cloneTensor st id with
        | .error e => .error e
        | .ok cloned => .ok (insertNewAt freshId st cloned.val cloned.shape nt.shape srcTy)
      else if srcTy = "float32" then convertFloat32To freshId st id target
      else if srcTy = "int32" then convertInt32To freshId st id target
      else if srcTy = "int64" then convertInt64To freshId st id target
      else if srcTy = "uint8" then convertUint8To freshId st id target
      else if srcTy = "bool" then convertBoolTo freshId st id target
      else .error ("Unsupported type: " ++ srcTy)
  | _, _, _ => .error "Tensor not found"

/-- Windows storeTensor: stores the native tensor, then its shape, then the
mapped type string; unlike linux the catch block rethrows.  The returned pair
is the registry state after the call together with the thrown error, if any:
the entries inserted before a failing type mapping remain in the registry. -/
def storeTensor (st : TMState) (id : String) (t : NativeTensor) :
    TMState × Except String Unit :=
  let st1 := { st with tensors := mapInsert st.tensors id t }
  let st2 := { st1 with tensorShapes := mapInsert st1.tensorShapes id t.shape }
  match getElementTypeString t.etype with
  | .ok ty => ({ st2 with tensorTypes := mapInsert st2.tensorTypes id ty }, .ok ())
  | .error e => (st2, .error e)

end Windows

/-! ## Lock-acquisition model

Each registry operation is transcribed as the sequence of its control-flow
regions; a step records whether the registry mutex is held there and whether
the region reads or writes registry state (the three maps or the id
counter).  Both platform variants of convertTensor have the same structure:
the lock_guard is declared only after the same-type clone branch has
returned, so the initial map lookups and the clone-path id generation and
insertions run with no lock held (cloneTensor itself locks internally, which
is why the caller cannot already hold the mutex there). -/

structure LockStep where
  lockHeld : Bool
  touchesRegistry : Bool
deriving DecidableEq

/-- createXTensor (all six): the whole body sits under a lock_guard. -/
def createTensorLockTrace : List LockStep := [⟨true, true⟩]

/-- getTensorData: the whole body sits under a lock_guard. -/
def getTensorDataLockTrace : List LockStep := [⟨true, true⟩]

/-- releaseTensor: the whole body sits under a lock_guard. -/
def releaseTensorLockTrace : List LockStep := [⟨true, true⟩]

/-- storeTensor: the whole body sits under a lock_guard. -/
def storeTensorLockTrace : List LockStep := [⟨true, true⟩]

/-- getTensorType: the whole body sits under a lock_guard. -/
def getTensorTypeLockTrace : List LockStep := [⟨true, true⟩]

/-- getTensorShape: the whole body sits under a lock_guard. -/
def getTensorShapeLockTrace : List LockStep := [⟨true, true⟩]

/-- cloneTensor: the whole body sits under a lock_guard. -/
def cloneTensorLockTrace : List LockStep := [⟨true, true⟩]

/-- convertTensor (identical structure on linux and windows): first the three
map lookups with no lock held; on the same-type path a call into the
internally locked cloneTensor followed by the unlocked id generation and the
three unlocked map insertions; on the different-type path the lock_guard is
finally taken and the convertXTo helper runs under it. -/
def convertTensorLockTrace : List LockStep :=
  [⟨false, true⟩, ⟨true, true⟩, ⟨false, true⟩, ⟨true, true⟩]

/-- All registry-mutating operations and metadata reads of the manager. -/
def registryOpLockTraces : List (List LockStep) :=
  [createTensorLockTrace, getTensorDataLockTrace, releaseTensorLockTrace,
   storeTensorLockTrace, getTensorTypeLockTrace, getTensorShapeLockTrace,
   cloneTensorLockTrace, convertTensorLockTrace]

/-- An operation is fully serialized when every region that touches registry
state runs with the mutex held. -/
def fullySerialized (tr : List LockStep) : Prop :=
  ∀ s ∈ tr, s.touchesRegistry = true → s.lockHeld = true

instance (tr : List LockStep) : Decidable (fullySerialized tr) := by
  unfold fullySerialized; infer_instance

/-! ## Shared helper lemmas -/

theorem typeTagOf_mem_supported (v : TensorValue) :
    typeTagOf v ∈ supportedTypeTags := by
  cases v <;> simp [typeTagOf, supportedTypeTags]

theorem numeric_mem_supported (t : String) (h : t ∈ numericTypeTags) :
    t ∈ supportedTypeTags := by
  simp only [numericTypeTags, List.mem_cons, List.mem_singleton,
    List.not_mem_nil, or_false] at h
  rcases h with h | h | h | h | h <;> simp [h, supportedTypeTags]

/-! ## Claims -/

/-- Claim C1, counterexample: a live string tensor converted with target type
string does not fail; the same-type fast path of convertTensor runs before
any string check and cloneTensor supports string tensors, so the conversion
succeeds by cloning. -/
theorem stringToString_conversion_succeeds :
    ∃ p, (createTensor TMState.initial (.stringv ["a"]) [1]).bind
      (fun r => convertTensor r.2 r.1 "string") = .ok p :=
  ⟨_, rfl⟩

/-- Claim C1, amended: converting a live string tensor to any target type
other than string fails, and converting a live tensor of any of the five
numeric types to target string fails; but a conversion of a string tensor
whose target type is string itself succeeds by deep-cloning rather than
raising UnsupportedConversionError. -/
theorem stringConversions_rejected_except_clone (st : TMState) (h : String)
    (nt : NativeTensor) (ty : String) (sh : List ℤ)
    (ht : mapFind st.tensors h = some nt)
    (hty : mapFind st.tensorTypes h = some ty)
    (hsh : mapFind st.tensorShapes h = some sh) :
    (ty = "string" → ∀ t, t ≠ "string" → ∃ e, convertTensor st h t = .error e) ∧
    (ty ∈ numericTypeTags → ∃ e, convertTensor st h "string" = .error e) := by
  constructor
  · intro hstr t hne
    subst hstr
    have hne2 : ¬ ("string" = t) := fun hh => hne hh.symm
    refine ⟨"Unsupported type conversion: string to " ++ t, ?_⟩
    simp [convertTensor, ht, hty, hsh, hne2]
  · intro hmem
    simp only [numericTypeTags, List.mem_cons, List.mem_singleton,
      List.not_mem_nil, or_false] at hmem
    rcases hmem with hcase | hcase | hcase | hcase | hcase <;> subst hcase
    · exact ⟨"Unsupported type: string",
        by simp [convertTensor, ht, hty, hsh, convertFloat32To]⟩
    · exact ⟨"Unsupported type: string",
        by simp [convertTensor, ht, hty, hsh, convertInt32To]⟩
    · exact ⟨"Unsupported type: string",
        by simp [convertTensor, ht, hty, hsh, convertInt64To]⟩
    · exact ⟨"Unsupported type: string",
        by simp [convertTensor, ht, hty, hsh, convertUint8To]⟩
    · exact ⟨"Unsupported type: string",
        by simp [convertTensor, ht, hty, hsh, convertBoolTo]⟩

/-- Registry state holding one string tensor, as built by createStringTensor. -/
def oneStringTensorState : TMState :=
  ⟨2, [("tensor_1", ⟨.stringt, .stringv ["a"], [1]⟩)],
    [("tensor_1", "string")], [("tensor_1", [1])]⟩

/-- Registry state holding one int32 tensor, as built by createInt32Tensor. -/
def oneInt32TensorState : TMState :=
  ⟨2, [("tensor_1", ⟨.int32t, .int32 [7], [1]⟩)],
    [("tensor_1", "int32")], [("tensor_1", [1])]⟩

/-- Claim C1 witness: the amended statement applied to a concrete string
tensor with target int32 and to a concrete int32 tensor with target string. -/
theorem stringConversions_rejected_except_clone_witness :
    (∃ e, convertTensor oneStringTensorState "tensor_1" "int32" = .error e) ∧
    (∃ e, convertTensor oneInt32TensorState "tensor_1" "string" = .error e) :=
  ⟨(stringConversions_rejected_except_clone oneStringTensorState "tensor_1"
      ⟨.stringt, .stringv ["a"], [1]⟩ "string" [1] rfl rfl rfl).1 rfl "int32"
      (by decide),
   (stringConversions_rejected_except_clone oneInt32TensorState "tensor_1"
      ⟨.int32t, .int32 [7], [1]⟩ "int32" [1] rfl rfl rfl).2 (by decide)⟩

/-- Registry state holding the float32 tensor [300, -10], as built by
createFloat32Tensor. -/
def satFloatState : TMState :=
  ⟨2, [("tensor_1", ⟨.float, .float32 [300, -10], [2]⟩)],
    [("tensor_1", "float32")], [("tensor_1", [2])]⟩

/-- Registry state holding the int64 tensor [5000000000], as built by
createInt64Tensor. -/
def satInt64State : TMState :=
  ⟨2, [("tensor_1", ⟨.int64t, .int64 [5000000000], [1]⟩)],
    [("tensor_1", "int64")], [("tensor_1", [1])]⟩

/-- Claim C2: saturating conversions clamp to the representable range of the
target, clamping before rounding where both apply.  Element level: float32
300 to uint8 is 255 and -10 is 0; int64 5000000000 to int32 is INT32_MAX and
everything below INT32_MIN saturates to INT32_MIN; the int64-to-int32 rule is
exactly clamping to [INT32_MIN, INT32_MAX]; the int32/int64-to-uint8 rule is
exactly min(max(v,0),255); above 255 a float32 source is clamped with no
rounding step, below 0 likewise.  Registry level: converting the tensors
[300, -10] (float32, target uint8) and [5000000000] (int64, target int32)
produces [255, 0] and [2147483647]. -/
theorem saturating_conversions_clamp :
    f32ToUint8Elem 300 = 255 ∧
    f32ToUint8Elem (-10) = 0 ∧
    int64ToInt32Elem 5000000000 = 2147483647 ∧
    (∀ v : ℤ, v < -2147483648 → int64ToInt32Elem v = -2147483648) ∧
    (∀ v : ℤ, int64ToInt32Elem v = max (-2147483648) (min 2147483647 v)) ∧
    (∀ v : ℤ, intToUint8Elem v = (min (max v 0) 255).toNat) ∧
    (∀ v : ℚ, 255 < v → f32ToUint8Elem v = 255) ∧
    (∀ v : ℚ, v < 0 → f32ToUint8Elem v = 0) ∧
    ((convertTensor satFloatState "tensor_1" "uint8").map
        (fun p => getTensorData p.2 p.1) =
      .ok (.ok (some ⟨[2], "uint8", .uint8 [255, 0]⟩))) ∧
    ((convertTensor satInt64State "tensor_1" "int32").map
        (fun p => getTensorData p.2 p.1) =
      .ok (.ok (some ⟨[1], "int32", .int32 [2147483647]⟩))) := by
  refine ⟨by with_unfolding_all decide, by with_unfolding_all decide, by decide,
    ?_, ?_, ?_, ?_, ?_, by with_unfolding_all decide, by decide⟩
  · intro v h
    unfold int64ToInt32Elem
    split_ifs <;> omega
  · intro v
    unfold int64ToInt32Elem
    split_ifs <;> omega
  · intro v
    unfold intToUint8Elem
    split_ifs <;> omega
  · intro v h
    have h0 : ¬ (v < 0) := by linarith
    have hgt : (255 : ℚ) < v := h
    unfold f32ToUint8Elem
    rw [if_neg h0, if_pos hgt]
    with_unfolding_all decide
  · intro v h
    unfold f32ToUint8Elem
    rw [if_pos h]
    with_unfolding_all decide

/-- Claim C2 witness: the clamping facts applied at int64 value -3000000000,
at int32 value 1000, and at float32 values 256.5 and -0.25. -/
theorem saturating_conversions_clamp_witness :
    int64ToInt32Elem (-3000000000) = -2147483648 ∧
    int64ToInt32Elem 77 = max (-2147483648) (min 2147483647 77) ∧
    intToUint8Elem 1000 = (min (max (1000 : ℤ) 0) 255).toNat ∧
    f32ToUint8Elem (513/2) = 255 ∧
    f32ToUint8Elem (-(1/4)) = 0 :=
  ⟨saturating_conversions_clamp.2.2.2.1 (-3000000000) (by decide),
   saturating_conversions_clamp.2.2.2.2.1 77,
   saturating_conversions_clamp.2.2.2.2.2.1 1000,
   saturating_conversions_clamp.2.2.2.2.2.2.1 (513/2) (by with_unfolding_all decide),
   saturating_conversions_clamp.2.2.2.2.2.2.2.1 (-(1/4)) (by with_unfolding_all decide)⟩

/-- Registry state holding the float32 tensor [2.5, -2.5], as built by
createFloat32Tensor. -/
def roundingFloatState : TMState :=
  ⟨2, [("tensor_1", ⟨.float, .float32 [5/2, -(5/2)], [2]⟩)],
    [("tensor_1", "float32")], [("tensor_1", [2])]⟩

/-- Claim C3: the float32-to-int32 and float32-to-int64 loop body (shared
definition f32RoundElem) truncates v + 0.5 for v at least 0 and v - 0.5
otherwise, which agrees with round-half-away-from-zero (round the magnitude
half-up, reapply the sign) on every value; in particular 2.5 rounds to 3 and
-2.5 to -3, not to 2 as under rounding to even.  Registry level: converting
the float32 tensor [2.5, -2.5] to int32 and to int64 yields [3, -3]. -/
theorem float_to_int_rounds_half_away_from_zero :
    (∀ v : ℚ, f32RoundElem v = specRoundHalfAwayFromZero v) ∧
    f32RoundElem (5/2) = 3 ∧
    f32RoundElem (-(5/2)) = -3 ∧
    ((convertTensor roundingFloatState "tensor_1" "int32").map
        (fun p => getTensorData p.2 p.1) =
      .ok (.ok (some ⟨[2], "int32", .int32 [3, -3]⟩))) ∧
    ((convertTensor roundingFloatState "tensor_1" "int64").map
        (fun p => getTensorData p.2 p.1) =
      .ok (.ok (some ⟨[2], "int64", .int64 [3, -3]⟩))) := by
  refine ⟨?_, by with_unfolding_all decide, by with_unfolding_all decide,
    by with_unfolding_all decide, by with_unfolding_all decide⟩
  intro v
  unfold f32RoundElem specRoundHalfAwayFromZero
  by_cases h : 0 ≤ v
  · rw [if_pos h, if_pos h, ratTrunc_nonneg_eq_floor _ (by linarith)]
  · rw [if_neg h, if_neg h]
    have hlt : v < 0 := lt_of_not_le h
    rw [show v + -(1 : ℚ)/2 = v - 1/2 by ring,
      ratTrunc_nonpos_eq_ceil _ (by linarith)]
    rw [show -v + (1 : ℚ)/2 = -(v - 1/2) by ring, Int.floor_neg, neg_neg]

/-- Claim C4: creating a tensor of any supported element type with a shape
whose dimension product matches the data length succeeds, and the three
getters then report exactly the declared type tag, the declared shape, and
the element values handed in (exact in this model: integer and bool types
round-trip value-for-value and float32 data is copied without being
re-encoded).  getTensorData is a pure read of the state, so the snapshot
cannot mutate or invalidate the tensor. -/
theorem createTensor_roundTrip (st : TMState) (v : TensorValue) (shape : List ℤ)
    (hlen : shapeProd shape = (dataLen v : ℤ)) :
    ∃ st2, createTensor st v shape = .ok (freshTensorId st, st2) ∧
      getTensorType st2 (freshTensorId st) = some (typeTagOf v) ∧
      getTensorShape st2 (freshTensorId st) = some shape ∧
      getTensorData st2 (freshTensorId st) = .ok (some ⟨shape, typeTagOf v, v⟩) := by
  refine ⟨⟨st.nextTensorId + 1,
      mapInsert st.tensors (freshTensorId st) ⟨etypeOfVal v, v, shape⟩,
      mapInsert st.tensorTypes (freshTensorId st) (typeTagOf v),
      mapInsert st.tensorShapes (freshTensorId st) shape⟩, ?_, ?_, ?_, ?_⟩
  · simp [createTensor, hlen]
  · simp [getTensorType, mapFind_insert_self]
  · simp [getTensorShape, mapFind_insert_self]
  · simp [getTensorData, mapFind_insert_self, typeTagOf_mem_supported]

/-- Claim C4 witness: the round-trip applied to a concrete float32 tensor
with three elements and shape [3], and to a concrete bool tensor of shape
[2, 1]. -/
theorem createTensor_roundTrip_witness :
    (∃ st2, createTensor TMState.initial (.float32 [1, 2, 3]) [3] =
        .ok (freshTensorId TMState.initial, st2) ∧
      getTensorType st2 (freshTensorId TMState.initial) =
        some (typeTagOf (.float32 [1, 2, 3])) ∧
      getTensorShape st2 (freshTensorId TMState.initial) = some [3] ∧
      getTensorData st2 (freshTensorId TMState.initial) =
        .ok (some ⟨[3], typeTagOf (.float32 [1, 2, 3]), .float32 [1, 2, 3]⟩)) ∧
    (∃ st2, createTensor TMState.initial (.boolv [true, false]) [2, 1] =
        .ok (freshTensorId TMState.initial, st2) ∧
      getTensorType st2 (freshTensorId TMState.initial) =
        some (typeTagOf (.boolv [true, false])) ∧
      getTensorShape st2 (freshTensorId TMState.initial) = some [2, 1] ∧
      getTensorData st2 (freshTensorId TMState.initial) =
        .ok (some ⟨[2, 1], typeTagOf (.boolv [true, false]), .boolv [true, false]⟩)) :=
  ⟨createTensor_roundTrip TMState.initial (.float32 [1, 2, 3]) [3] (by decide),
   createTensor_roundTrip TMState.initial (.boolv [true, false]) [2, 1] (by decide)⟩

/-- Claim C5: on a registry whose maps have distinct keys (an invariant of
std::map), releasing a live handle returns true, releasing it again returns
false and leaves the state unchanged, and after the release getTensorData
reports absence through its null sentinel while the two metadata getters
fail; releasing a handle that never existed returns false with the state
unchanged.  releaseTensor is total, so no call can fault. -/
theorem releaseTensor_semantics (st : TMState) (id : String)
    (hnd1 : keyNodup st.tensors) (hnd2 : keyNodup st.tensorTypes)
    (hnd3 : keyNodup st.tensorShapes) :
    ((mapFind st.tensors id).isSome →
      (releaseTensor st id).1 = true ∧
      releaseTensor (releaseTensor st id).2 id = (false, (releaseTensor st id).2) ∧
      getTensorData (releaseTensor st id).2 id = .ok none ∧
      getTensorType (releaseTensor st id).2 id = none ∧
      getTensorShape (releaseTensor st id).2 id = none) ∧
    (mapFind st.tensors id = none → releaseTensor st id = (false, st)) := by
  constructor
  · intro hlive
    have hrel : releaseTensor st id =
        (true, ⟨st.nextTensorId, mapErase st.tensors id,
          mapErase st.tensorTypes id, mapErase st.tensorShapes id⟩) := by
      simp [releaseTensor, hlive]
    have hT : mapFind (mapErase st.tensors id) id = none :=
      mapFind_erase_self st.tensors id hnd1
    refine ⟨by rw [hrel], ?_, ?_, ?_, ?_⟩
    · rw [hrel]
      simp [releaseTensor, hT]
    · rw [hrel]
      simp [getTensorData, hT]
    · rw [hrel]
      simp [getTensorType, mapFind_erase_self st.tensorTypes id hnd2]
    · rw [hrel]
      simp [getTensorShape, mapFind_erase_self st.tensorShapes id hnd3]
  · intro hdead
    simp [releaseTensor, hdead]

/-- Claim C5 witness: release semantics applied to a concrete registry with
one live int32 tensor, both for its live handle and for an unknown handle. -/
theorem releaseTensor_semantics_witness :
    ((releaseTensor oneInt32TensorState "tensor_1").1 = true ∧
      releaseTensor (releaseTensor oneInt32TensorState "tensor_1").2 "tensor_1" =
        (false, (releaseTensor oneInt32TensorState "tensor_1").2) ∧
      getTensorData (releaseTensor oneInt32TensorState "tensor_1").2 "tensor_1" =
        .ok none ∧
      getTensorType (releaseTensor oneInt32TensorState "tensor_1").2 "tensor_1" =
        none ∧
      getTensorShape (releaseTensor oneInt32TensorState "tensor_1").2 "tensor_1" =
        none) ∧
    releaseTensor oneInt32TensorState "tensor_99" = (false, oneInt32TensorState) :=
  ⟨(releaseTensor_semantics oneInt32TensorState "tensor_1"
      (by decide) (by decide) (by decide)).1 (by decide),
   (releaseTensor_semantics oneInt32TensorState "tensor_99"
      (by decide) (by decide) (by decide)).2 (by decide)⟩

/-- Claim C6: converting a live numeric tensor to its own type deep-clones
it.  Under the registry invariants that the recorded shape agrees with the
native tensor shape and that the next generated id is not yet in use (both
maintained by every allocation path), the call returns a fresh handle
distinct from the source whose recorded type, shape and element data all
equal those of the source; the clone is backed by its own copy of the data,
so releasing the source leaves the clone data readable and unchanged, and
releasing the clone leaves the source data readable and unchanged. -/
theorem sameType_convert_deep_clones (st : TMState) (h : String)
    (nt : NativeTensor) (ty : String)
    (ht : mapFind st.tensors h = some nt)
    (hty : mapFind st.tensorTypes h = some ty)
    (hsh : mapFind st.tensorShapes h = some nt.shape)
    (hnum : ty ∈ numericTypeTags)
    (hfresh : mapFind st.tensors (freshTensorId st) = none) :
    ∃ st2, convertTensor st h ty = .ok (freshTensorId st, st2) ∧
      freshTensorId st ≠ h ∧
      getTensorType st2 (freshTensorId st) = some ty ∧
      getTensorType st2 h = some ty ∧
      getTensorShape st2 (freshTensorId st) = some nt.shape ∧
      getTensorShape st2 h = some nt.shape ∧
      getTensorData st2 (freshTensorId st) = .ok (some ⟨nt.shape, ty, nt.val⟩) ∧
      getTensorData st2 h = .ok (some ⟨nt.shape, ty, nt.val⟩) ∧
      getTensorData (releaseTensor st2 h).2 (freshTensorId st) =
        .ok (some ⟨nt.shape, ty, nt.val⟩) ∧
      getTensorData (releaseTensor st2 (freshTensorId st)).2 h =
        .ok (some ⟨nt.shape, ty, nt.val⟩) := by
  have hne : freshTensorId st ≠ h := by
    intro he
    rw [he, ht] at hfresh
    exact Option.noConfusion hfresh
  have hne2 : h ≠ freshTensorId st := Ne.symm hne
  have hsupp : ty ∈ supportedTypeTags := numeric_mem_supported ty hnum
  have fT : mapFind (mapInsert st.tensors (freshTensorId st)
      ⟨etypeOfVal nt.val, nt.val, nt.shape⟩) h = some nt := by
    rw [mapFind_insert_ne _ _ _ _ hne2]
    exact ht
  have fTy : mapFind (mapInsert st.tensorTypes (freshTensorId st) ty) h = some ty := by
    rw [mapFind_insert_ne _ _ _ _ hne2]
    exact hty
  have fSh : mapFind (mapInsert st.tensorShapes (freshTensorId st) nt.shape) h =
      some nt.shape := by
    rw [mapFind_insert_ne _ _ _ _ hne2]
    exact hsh
  have eT : mapFind (mapErase (mapInsert st.tensors (freshTensorId st)
      ⟨etypeOfVal nt.val, nt.val, nt.shape⟩) h) (freshTensorId st) =
      some ⟨etypeOfVal nt.val, nt.val, nt.shape⟩ := by
    rw [mapFind_erase_ne _ _ _ hne]
    exact mapFind_insert_self _ _ _
  have eTy : mapFind (mapErase (mapInsert st.tensorTypes (freshTensorId st) ty) h)
      (freshTensorId st) = some ty := by
    rw [mapFind_erase_ne _ _ _ hne]
    exact mapFind_insert_self _ _ _
  have eSh : mapFind (mapErase (mapInsert st.tensorShapes (freshTensorId st) nt.shape) h)
      (freshTensorId st) = some nt.shape := by
    rw [mapFind_erase_ne _ _ _ hne]
    exact mapFind_insert_self _ _ _
  have gT : mapFind (mapErase (mapInsert st.tensors (freshTensorId st)
      ⟨etypeOfVal nt.val, nt.val, nt.shape⟩) (freshTensorId st)) h = some nt := by
    rw [mapFind_erase_ne _ _ _ hne2]
    exact fT
  have gTy : mapFind (mapErase (mapInsert st.tensorTypes (freshTensorId st) ty)
      (freshTensorId st)) h = some ty := by
    rw [mapFind_erase_ne _ _ _ hne2]
    exact fTy
  have gSh : mapFind (mapErase (mapInsert st.tensorShapes (freshTensorId st) nt.shape)
      (freshTensorId st)) h = some nt.shape := by
    rw [mapFind_erase_ne _ _ _ hne2]
    exact fSh
  refine ⟨⟨st.nextTensorId + 1,
      mapInsert st.tensors (freshTensorId st) ⟨etypeOfVal nt.val, nt.val, nt.shape⟩,
      mapInsert st.tensorTypes (freshTensorId st) ty,
      mapInsert st.tensorShapes (freshTensorId st) nt.shape⟩,
    ?_, hne, ?_, ?_, ?_, ?_, ?_, ?_, ?_, ?_⟩
  · simp [convertTensor, cloneTensor, ht, hty, hsh, hsupp, insertNewFull]
  · simp [getTensorType, mapFind_insert_self]
  · simpa [getTensorType] using fTy
  · simp [getTensorShape, mapFind_insert_self]
  · simpa [getTensorShape] using fSh
  · simp [getTensorData, mapFind_insert_self, hsupp]
  · simp [getTensorData, fT, fTy, fSh, hsupp]
  · simp [releaseTensor, fT, getTensorData, eT, eTy, eSh, hsupp]
  · simp [releaseTensor, mapFind_insert_self, getTensorData, gT, gTy, gSh, hsupp]

/-- Claim C6 witness: the deep-clone property applied to the concrete
registry holding one int32 tensor. -/
theorem sameType_convert_deep_clones_witness :
    ∃ st2, convertTensor oneInt32TensorState "tensor_1" "int32" =
        .ok (freshTensorId oneInt32TensorState, st2) ∧
      freshTensorId oneInt32TensorState ≠ "tensor_1" ∧
      getTensorType st2 (freshTensorId oneInt32TensorState) = some "int32" ∧
      getTensorType st2 "tensor_1" = some "int32" ∧
      getTensorShape st2 (freshTensorId oneInt32TensorState) = some [1] ∧
      getTensorShape st2 "tensor_1" = some [1] ∧
      getTensorData st2 (freshTensorId oneInt32TensorState) =
        .ok (some ⟨[1], "int32", .int32 [7]⟩) ∧
      getTensorData st2 "tensor_1" = .ok (some ⟨[1], "int32", .int32 [7]⟩) ∧
      getTensorData (releaseTensor st2 "tensor_1").2
        (freshTensorId oneInt32TensorState) = .ok (some ⟨[1], "int32", .int32 [7]⟩) ∧
      getTensorData (releaseTensor st2 (freshTensorId oneInt32TensorState)).2
        "tensor_1" = .ok (some ⟨[1], "int32", .int32 [7]⟩) :=
  sameType_convert_deep_clones oneInt32TensorState "tensor_1"
    ⟨.int32t, .int32 [7], [1]⟩ "int32" rfl rfl rfl (by decide) (by decide)

/-- Claim C7: the windows convertTensor rejects every conversion whose target
type is float16, whatever the recorded source type is (the hypothesis leaves
ty arbitrary, so the case ty = "float16" is included): the guard runs before
the source/target equality comparison, so the same-type clone fast path can
never bypass the platform capability check. -/
theorem windows_float16_target_rejected (freshId : String) (st : TMState)
    (id : String) (nt : NativeTensor) (ty : String) (sh : List ℤ)
    (ht : mapFind st.tensors id = some nt)
    (hty : mapFind st.tensorTypes id = some ty)
    (hsh : mapFind st.tensorShapes id = some sh) :
    Windows.convertTensor freshId st id "float16" =
      .error "float16 is not supported on Windows" := by
  simp [Windows.convertTensor, ht, hty, hsh]

/-- Registry state of the windows manager holding one float16 tensor, as
left by storeTensor for an engine-produced half-precision output (the
element values of a half-precision tensor have no registry representation
of their own and are irrelevant to the rejection path). -/
def oneFloat16TensorState : TMState :=
  ⟨2, [("tensor_1", ⟨.float16, .float32 [], [0]⟩)],
    [("tensor_1", "float16")], [("tensor_1", [0])]⟩

/-- Claim C7 witness: the float16 rejection applied to a live float16-typed
source tensor, the exact case in which the same-type fast path would
otherwise clone, and to a live int32 source tensor. -/
theorem windows_float16_target_rejected_witness :
    Windows.convertTensor "tensor_abc" oneFloat16TensorState "tensor_1" "float16" =
      .error "float16 is not supported on Windows" ∧
    Windows.convertTensor "tensor_abc" oneInt32TensorState "tensor_1" "float16" =
      .error "float16 is not supported on Windows" :=
  ⟨windows_float16_target_rejected "tensor_abc" oneFloat16TensorState "tensor_1"
      ⟨.float16, .float32 [], [0]⟩ "float16" [0] rfl rfl rfl,
   windows_float16_target_rejected "tensor_abc" oneInt32TensorState "tensor_1"
      ⟨.int32t, .int32 [7], [1]⟩ "int32" [1] rfl rfl rfl⟩

/-- Claim C8: evaluation of the store path at a native tensor whose element
type tag (double) has no registry mapping.  The type mapping fails as the
spec demands, but because storeTensor inserts the tensor and its shape
before resolving the type, the failing call leaves both records in the
registry: the linux variant swallows the exception and returns normally
with the tensor resolvable (and even releasable) under the handle, and the
windows variant rethrows yet leaves the same tensor and shape entries
behind.  No call path removes the partial record. -/
theorem storeTensor_unsupported_leaves_partial_record :
    getElementTypeString .doublet = .error "UnsupportedTypeError" ∧
    mapFind (storeTensor TMState.initial "t1" ⟨.doublet, .float32 [], [0]⟩).tensors
      "t1" = some ⟨.doublet, .float32 [], [0]⟩ ∧
    mapFind (storeTensor TMState.initial "t1" ⟨.doublet, .float32 [], [0]⟩).tensorShapes
      "t1" = some [0] ∧
    mapFind (storeTensor TMState.initial "t1" ⟨.doublet, .float32 [], [0]⟩).tensorTypes
      "t1" = none ∧
    (releaseTensor (storeTensor TMState.initial "t1" ⟨.doublet, .float32 [], [0]⟩)
      "t1").1 = true ∧
    (Windows.storeTensor TMState.initial "t1" ⟨.doublet, .float32 [], [0]⟩).2 =
      .error "UnsupportedTypeError" ∧
    mapFind (Windows.storeTensor TMState.initial "t1"
      ⟨.doublet, .float32 [], [0]⟩).1.tensors "t1" = some ⟨.doublet, .float32 [], [0]⟩ := by
  refine ⟨rfl, ?_, ?_, ?_, ?_, rfl, ?_⟩ <;> decide

/-- Claim C9: the lock-acquisition structure of the registry operations.
Every operation except convertTensor runs entirely under the registry mutex,
but on both platform variants convertTensor performs its initial lookups in
the three maps, and on the same-type path the id generation and the three
insertions of the cloned tensor, without holding the mutex (the lock_guard
is declared only after the clone branch has returned, because cloneTensor
acquires the mutex itself).  The claim that every registry-mutating
operation and metadata read is serialized under the lock therefore fails at
convertTensor. -/
theorem convertTensor_not_serialized_under_lock :
    ¬ (∀ tr ∈ registryOpLockTraces, fullySerialized tr) ∧
    ¬ fullySerialized convertTensorLockTrace ∧
    fullySerialized createTensorLockTrace ∧
    fullySerialized getTensorDataLockTrace ∧
    fullySerialized releaseTensorLockTrace ∧
    fullySerialized storeTensorLockTrace ∧
    fullySerialized getTensorTypeLockTrace ∧
    fullySerialized getTensorShapeLockTrace ∧
    fullySerialized cloneTensorLockTrace := by
  refine ⟨?_, ?_, ?_, ?_, ?_, ?_, ?_, ?_, ?_⟩ <;> decide

/-! ## Success-shape lemmas for the conversion paths -/

theorem convertFloat32To_ok_shape (st : TMState) (h t nid : String) (st2 : TMState)
    (hok : convertFloat32To st h t = .ok (nid, st2)) :
    ∃ v sh ty, (nid, st2) = insertNew st v sh ty := by
  unfold convertFloat32To at hok
  cases hT : mapFind st.tensors h with
  | none => simp [hT] at hok
  | some nt =>
      rw [hT] at hok
      simp only at hok
      split_ifs at hok <;> simp only [Except.ok.injEq] at hok <;>
        exact ⟨_, _, _, hok.symm⟩

theorem convertInt32To_ok_shape (st : TMState) (h t nid : String) (st2 : TMState)
    (hok : convertInt32To st h t = .ok (nid, st2)) :
    ∃ v sh ty, (nid, st2) = insertNew st v sh ty := by
  unfold convertInt32To at hok
  cases hT : mapFind st.tensors h with
  | none => simp [hT] at hok
  | some nt =>
      rw [hT] at hok
      simp only at hok
      split_ifs at hok <;> simp only [Except.ok.injEq] at hok <;>
        exact ⟨_, _, _, hok.symm⟩

theorem convertInt64To_ok_shape (st : TMState) (h t nid : String) (st2 : TMState)
    (hok : convertInt64To st h t = .ok (nid, st2)) :
    ∃ v sh ty, (nid, st2) = insertNew st v sh ty := by
  unfold convertInt64To at hok
  cases hT : mapFind st.tensors h with
  | none => simp [hT] at hok
  | some nt =>
      rw [hT] at hok
      simp only at hok
      split_ifs at hok <;> simp only [Except.ok.injEq] at hok <;>
        exact ⟨_, _, _, hok.symm⟩

theorem convertUint8To_ok_shape (st : TMState) (h t nid : String) (st2 : TMState)
    (hok : convertUint8To st h t = .ok (nid, st2)) :
    ∃ v sh ty, (nid, st2) = insertNew st v sh ty := by
  unfold convertUint8To at hok
  cases hT : mapFind st.tensors h with
  | none => simp [hT] at hok
  | some nt =>
      rw [hT] at hok
      simp only at hok
      split_ifs at hok <;> simp only [Except.ok.injEq] at hok <;>
        exact ⟨_, _, _, hok.symm⟩

theorem convertBoolTo_ok_shape (st : TMState) (h t nid : String) (st2 : TMState)
    (hok : convertBoolTo st h t = .ok (nid, st2)) :
    ∃ v sh ty, (nid, st2) = insertNew st v sh ty := by
  unfold convertBoolTo at hok
  cases hT : mapFind st.tensors h with
  | none => simp [hT] at hok
  | some nt =>
      rw [hT] at hok
      simp only at hok
      split_ifs at hok <;> simp only [Except.ok.injEq] at hok <;>
        exact ⟨_, _, _, hok.symm⟩

/-- Every successful convertTensor call, on either the clone path or a
numeric conversion path, produces exactly the state insertNewFull builds:
the generated fresh id mapped to the new tensor, type and shape on top of
the unchanged previous maps. -/
theorem convertTensor_ok_shape (st : TMState) (h t nid : String) (st2 : TMState)
    (hok : convertTensor st h t = .ok (nid, st2)) :
    ∃ v nsh rsh ty, (nid, st2) = insertNewFull st v nsh rsh ty := by
  unfold convertTensor at hok
  cases hT : mapFind st.tensors h with
  | none => simp [hT] at hok
  | some nt =>
  cases hTy : mapFind st.tensorTypes h with
  | none => simp [hT, hTy] at hok
  | some srcTy =>
  cases hSh : mapFind st.tensorShapes h with
  | none => simp [hT, hTy, hSh] at hok
  | some sh0 =>
  rw [hT, hTy, hSh] at hok
  simp only at hok
  by_cases hc : srcTy = t
  · rw [if_pos hc] at hok
    cases hcl : cloneTensor st h with
    | error e => rw [hcl] at hok; exact absurd hok (by simp)
    | ok cl =>
        rw [hcl] at hok
        simp only [Except.ok.injEq] at hok
        exact ⟨_, _, _, _, hok.symm⟩
  · rw [if_neg hc] at hok
    split_ifs at hok
    · obtain ⟨v, sh, ty, he⟩ := convertFloat32To_ok_shape st h t nid st2 hok
      exact ⟨v, sh, sh, ty, by rwa [insertNew] at he⟩
    · obtain ⟨v, sh, ty, he⟩ := convertInt32To_ok_shape st h t nid st2 hok
      exact ⟨v, sh, sh, ty, by rwa [insertNew] at he⟩
    · obtain ⟨v, sh, ty, he⟩ := convertInt64To_ok_shape st h t nid st2 hok
      exact ⟨v, sh, sh, ty, by rwa [insertNew] at he⟩
    · obtain ⟨v, sh, ty, he⟩ := convertUint8To_ok_shape st h t nid st2 hok
      exact ⟨v, sh, sh, ty, by rwa [insertNew] at he⟩
    · obtain ⟨v, sh, ty, he⟩ := convertBoolTo_ok_shape st h t nid st2 hok
      exact ⟨v, sh, sh, ty, by rwa [insertNew] at he⟩

/-- A successful convertTensor call implies the source handle was live. -/
theorem convertTensor_ok_source_live (st : TMState) (h t : String)
    (p : String × TMState) (hok : convertTensor st h t = .ok p) :
    (mapFind st.tensors h).isSome = true := by
  unfold convertTensor at hok
  cases hT : mapFind st.tensors h with
  | none => simp [hT] at hok
  | some nt => rfl

/-- Claim C10: a successful convertTensor call adds exactly one record.
Under the registry invariant that the id the generator will hand out is not
yet in use, the new handle is that fresh id, it differs from every
previously live handle including the source, all three maps hold an entry
for it afterwards, and every other handle resolves to exactly the same
tensor, type entry, shape entry, metadata reads and data snapshot as before
the call. -/
theorem convertTensor_adds_exactly_one_record (st : TMState) (h t nid : String)
    (st2 : TMState)
    (hfresh : mapFind st.tensors (freshTensorId st) = none)
    (hok : convertTensor st h t = .ok (nid, st2)) :
    nid = freshTensorId st ∧
    h ≠ nid ∧
    (mapFind st2.tensors nid).isSome = true ∧
    (mapFind st2.tensorTypes nid).isSome = true ∧
    (mapFind st2.tensorShapes nid).isSome = true ∧
    ∀ g, g ≠ nid →
      mapFind st2.tensors g = mapFind st.tensors g ∧
      mapFind st2.tensorTypes g = mapFind st.tensorTypes g ∧
      mapFind st2.tensorShapes g = mapFind st.tensorShapes g ∧
      getTensorType st2 g = getTensorType st g ∧
      getTensorShape st2 g = getTensorShape st g ∧
      getTensorData st2 g = getTensorData st g := by
  obtain ⟨v, nsh, rsh, ty, he⟩ := convertTensor_ok_shape st h t nid st2 hok
  have hlive := convertTensor_ok_source_live st h t (nid, st2) hok
  rw [insertNewFull, Prod.mk.injEq] at he
  obtain ⟨hnid, hst2⟩ := he
  subst hnid
  subst hst2
  have hneq : h ≠ freshTensorId st := by
    intro hEq
    rw [hEq, hfresh] at hlive
    exact Bool.noConfusion hlive
  refine ⟨rfl, hneq, ?_, ?_, ?_, ?_⟩
  · simp [mapFind_insert_self]
  · simp [mapFind_insert_self]
  · simp [mapFind_insert_self]
  · intro g hg
    have e1 : mapFind (mapInsert st.tensors (freshTensorId st)
        ⟨etypeOfVal v, v, nsh⟩) g = mapFind st.tensors g :=
      mapFind_insert_ne _ _ _ _ hg
    have e2 : mapFind (mapInsert st.tensorTypes (freshTensorId st) ty) g =
        mapFind st.tensorTypes g := mapFind_insert_ne _ _ _ _ hg
    have e3 : mapFind (mapInsert st.tensorShapes (freshTensorId st) rsh) g =
        mapFind st.tensorShapes g := mapFind_insert_ne _ _ _ _ hg
    exact ⟨e1, e2, e3, by simp [getTensorType, e2],
      by simp [getTensorShape, e3], by simp [getTensorData, e1, e2, e3]⟩

/-- Registry state after widening the one int32 tensor to int64: the result
convertTensor and its helpers compute from oneInt32TensorState. -/
def oneInt32AfterWiden : TMState :=
  ⟨3, [("tensor_1", ⟨.int32t, .int32 [7], [1]⟩), ("tensor_2", ⟨.int64t, .int64 [7], [1]⟩)],
    [("tensor_1", "int32"), ("tensor_2", "int64")],
    [("tensor_1", [1]), ("tensor_2", [1])]⟩

/-- Claim C10 witness: the frame property applied to the concrete int32
registry converted to int64. -/
theorem convertTensor_adds_exactly_one_record_witness :
    "tensor_2" = freshTensorId oneInt32TensorState ∧
    "tensor_1" ≠ "tensor_2" ∧
    (mapFind oneInt32AfterWiden.tensors "tensor_2").isSome = true ∧
    (mapFind oneInt32AfterWiden.tensorTypes "tensor_2").isSome = true ∧
    (mapFind oneInt32AfterWiden.tensorShapes "tensor_2").isSome = true ∧
    ∀ g, g ≠ "tensor_2" →
      mapFind oneInt32AfterWiden.tensors g = mapFind oneInt32TensorState.tensors g ∧
      mapFind oneInt32AfterWiden.tensorTypes g =
        mapFind oneInt32TensorState.tensorTypes g ∧
      mapFind oneInt32AfterWiden.tensorShapes g =
        mapFind oneInt32TensorState.tensorShapes g ∧
      getTensorType oneInt32AfterWiden g = getTensorType oneInt32TensorState g ∧
      getTensorShape oneInt32AfterWiden g = getTensorShape oneInt32TensorState g ∧
      getTensorData oneInt32AfterWiden g = getTensorData oneInt32TensorState g :=
  convertTensor_adds_exactly_one_record oneInt32TensorState "tensor_1" "int64"
    "tensor_2" oneInt32AfterWiden (by decide) (by decide)
